import Mathlib

/-!
Shallow embedding of the payment verification gate of `src/server.js`
(ContextNowDev/contextnow-api): the Payment Verifier `verifyUSDCPayment`
(lines 38-166) and the Access Gate `x402Middleware` (lines 437-575),
together with the shared mutable set `usedTransactionSignatures`.

Embedding conventions:
- JavaScript numbers are embedded as exact rationals (`ℚ`); `parseInt` on a
  missing field yields `NaN`, so amounts live in `JSNum` (a rational or NaN)
  with the JavaScript comparison semantics (`NaN < x` is `false`).
- `undefined`-able JS fields are `Option`s; the JS `||` and truthiness tests
  are modelled explicitly.
- The external ledger (`solanaConnection.getParsedTransaction`) is an oracle
  `Fetcher`; a thrown transport error is its `Except.error` case, and the
  `try/catch` of `verifyUSDCPayment` maps it to the `VERIFICATION_ERROR`
  verdict at the two throwing sites.
- The process-wide `usedTransactionSignatures : Set` is threaded explicitly
  as a `List String` with set semantics (`setAdd`).
- Each verifier run also reports the list of ledger fetches it performed
  (`fetches`), so that "no ledger call is made" claims are statable.
-/

namespace ContextNow

/-- USDC mint address (src/server.js line 17, as base58). -/
def USDC_MINT : String := "EPjFWdd5AufqSSqeM2qN1xzybapC8G4wEGGkZwyTDt1v"

/-- `USDC_DECIMALS = 6` (src/server.js line 18). -/
def USDC_DECIMALS : Nat := 6

/-- A JavaScript number that may be `NaN` (exact-rational embedding of the
other values). -/
inductive JSNum where
  | nan : JSNum
  | num : ℚ → JSNum
deriving DecidableEq

/-- JavaScript `<` on a possibly-NaN left operand and a rational right
operand: any comparison with `NaN` is `false`. -/
def JSNum.ltQ : JSNum → ℚ → Bool
  | .nan, _ => false
  | .num a, b => decide (a < b)

/-- JavaScript division of a possibly-NaN number by a (nonzero) rational. -/
def JSNum.divQ : JSNum → ℚ → JSNum
  | .nan, _ => .nan
  | .num a, d => .num (a / d)

/-- JavaScript multiplication of a possibly-NaN number by a rational
(`NaN * x` is `NaN`). -/
def JSNum.mulQ : JSNum → ℚ → JSNum
  | .nan, _ => .nan
  | .num a, b => .num (a * b)

/-- `Math.floor` on a possibly-NaN number (`Math.floor(NaN)` is `NaN`). -/
def JSNum.floorJS : JSNum → JSNum
  | .nan => .nan
  | .num a => .num ((⌊a⌋ : ℤ) : ℚ)

/-- JavaScript subtraction on possibly-NaN numbers (`NaN` propagates). -/
def JSNum.subN : JSNum → JSNum → JSNum
  | .num a, .num b => .num (a - b)
  | _, _ => .nan

/-- JavaScript `<` on two possibly-NaN numbers: `false` whenever either
operand is `NaN`. -/
def JSNum.ltN : JSNum → JSNum → Bool
  | .num a, .num b => decide (a < b)
  | _, _ => false

/-- The numeric value of a possibly-`undefined` JS number: `undefined`
coerces to `NaN` the moment it enters arithmetic. -/
def jsNumOf : Option ℚ → JSNum
  | none => .nan
  | some q => .num q

/-- `parseInt` applied to `info.amount || info.tokenAmount?.amount`:
a decimal numeric string parses to its value, `undefined` gives `NaN`. -/
def parseIntJS : Option Nat → JSNum
  | none => .nan
  | some n => .num n

/-- JavaScript `a || b` on `undefined`-able values (a present value is
truthy here: decoded amount strings are nonempty). -/
def jsOrNat (a b : Option Nat) : Option Nat :=
  match a with
  | some x => some x
  | none => b

/-- The `info` object of a parsed SPL-token instruction
(src/server.js lines 96-98): `destination`, `mint`, `amount`,
`tokenAmount?.amount`, each possibly absent. -/
structure InstrInfo where
  destination : Option String
  mint : Option String
  amount : Option Nat
  tokenAmountAmount : Option Nat
deriving DecidableEq

/-- `instruction.parsed` : `{ type, info }` (src/server.js line 92). -/
structure ParsedPayload where
  type : String
  info : InstrInfo
deriving DecidableEq

/-- One instruction of `transaction.transaction.message.instructions`:
`program` and the optional `parsed` payload (src/server.js lines 89-92). -/
structure Instruction where
  program : Option String
  parsed : Option ParsedPayload
deriving DecidableEq

/-- `transaction.meta`, reduced to the truthiness of `meta.err`
(src/server.js line 69). -/
structure TxMeta where
  err : Bool
deriving DecidableEq

/-- The ledger view of a transaction: optional `meta` and the ordered
instruction list (src/server.js lines 69, 85). -/
structure ParsedTransaction where
  meta : Option TxMeta
  instructions : List Instruction
deriving DecidableEq

/-- `!transaction.meta || transaction.meta.err` (src/server.js line 69). -/
def txFailedOrUnconfirmed (tx : ParsedTransaction) : Bool :=
  match tx.meta with
  | none => true
  | some m => m.err

/-- The ledger oracle: `solanaConnection.getParsedTransaction`.
`Except.error` is a thrown transport fault, `.ok none` is "transaction not
found", `.ok (some tx)` a fetched record. -/
def Fetcher : Type := String → Except String (Option ParsedTransaction)

/-- Service configuration: whether `SOLANA_WALLET_ADDRESS` is set, and the
receiving USDC associated token account derived from it (base58). -/
structure Env where
  walletConfigured : Bool
  ourTokenAccount : String
deriving DecidableEq

/-- `getOurUSDCTokenAccount` (src/server.js lines 30-36): throws when the
wallet address is not configured, otherwise returns the deterministic
associated-token-account derivation. -/
def getOurUSDCTokenAccount (env : Env) : Except String String :=
  if !env.walletConfigured then .error "SOLANA_WALLET_ADDRESS not configured"
  else .ok env.ourTokenAccount

/-- The verification verdict objects returned by `verifyUSDCPayment`, one
constructor per `return` site, carrying the claim-relevant fields. -/
inductive Verdict where
  | replayAttack
  | txNotFound
  | txFailed
  | wrongRecipient (correct_address : String)
  | insufficientAmount (expected : ℚ) (received : JSNum)
  | verificationError (errMsg : String)
  | accepted (amountReceived : JSNum) (transactionSignature : String)
deriving DecidableEq

/-- The `valid` field of each returned object. -/
def Verdict.valid : Verdict → Bool
  | .accepted _ _ => true
  | _ => false

/-- The `code` field of each returned object (absent on success). -/
def Verdict.code : Verdict → Option String
  | .replayAttack => some "REPLAY_ATTACK"
  | .txNotFound => some "TX_NOT_FOUND"
  | .txFailed => some "TX_FAILED"
  | .wrongRecipient _ => some "WRONG_RECIPIENT"
  | .insufficientAmount _ _ => some "INSUFFICIENT_AMOUNT"
  | .verificationError _ => some "VERIFICATION_ERROR"
  | .accepted _ _ => none

/-- The loop-body condition of the scan (src/server.js lines 89-111): a
parsed `spl-token` `transfer`/`transferChecked` whose destination is our
token account, where a `transferChecked` with a non-USDC mint is skipped
(`continue`). -/
def instrQualifies (ourTokenAccountStr : String) (instruction : Instruction) : Bool :=
  match instruction.parsed with
  | none => false
  | some parsed =>
    instruction.program == some "spl-token" &&
    (parsed.type == "transfer" || parsed.type == "transferChecked") &&
    parsed.info.destination == some ourTokenAccountStr &&
    !(parsed.type == "transferChecked" && parsed.info.mint != some USDC_MINT)

/-- `info.amount || info.tokenAmount?.amount` (src/server.js line 98). -/
def instrAmount (instruction : Instruction) : Option Nat :=
  match instruction.parsed with
  | none => none
  | some parsed => jsOrNat parsed.info.amount parsed.info.tokenAmountAmount

/-- The `for ... break` scan (src/server.js lines 89-112): the amount field
of the first qualifying instruction, or `none` when no instruction
qualifies (`validPaymentFound` stays false). -/
def findFirstPayment (ourTokenAccountStr : String) :
    List Instruction → Option (Option Nat)
  | [] => none
  | instruction :: rest =>
    if instrQualifies ourTokenAccountStr instruction then
      some (instrAmount instruction)
    else findFirstPayment ourTokenAccountStr rest

/-- `Set.prototype.add` on the embedded signature set. -/
def setAdd (s : List String) (x : String) : List String :=
  if s.contains x then s else s ++ [x]

/-- Everything `verifyUSDCPayment` does after the awaited ledger fetch
resolves (src/server.js lines 57-154), with the `catch` (lines 156-165)
applied to the two throwing operations: the fetch itself and
`getOurUSDCTokenAccount`. Returns the verdict and the signature set after
the call. -/
def verifyAfterFetch (env : Env) (fetched : Except String (Option ParsedTransaction))
    (used : List String) (transactionSignature : String)
    (expectedAmountUSDC : ℚ) : Verdict × List String :=
  match fetched with
  | .error e => (.verificationError e, used)
  | .ok none => (.txNotFound, used)
  | .ok (some transaction) =>
    if txFailedOrUnconfirmed transaction then (.txFailed, used)
    else
      match getOurUSDCTokenAccount env with
      | .error e => (.verificationError e, used)
      | .ok ourTokenAccountStr =>
        match findFirstPayment ourTokenAccountStr transaction.instructions with
        | none => (.wrongRecipient ourTokenAccountStr, used)
        | some amount =>
          let receivedAmount := parseIntJS amount
          let expectedBaseUnits : ℤ :=
            Int.floor (expectedAmountUSDC * (10 : ℚ) ^ USDC_DECIMALS)
          let tolerance : ℚ := (expectedBaseUnits : ℚ) * (1 / 100)
          let minAmount : ℚ := (expectedBaseUnits : ℚ) - tolerance
          if receivedAmount.ltQ minAmount then
            (.insufficientAmount expectedAmountUSDC
              (receivedAmount.divQ ((10 : ℚ) ^ USDC_DECIMALS)), used)
          else
            (.accepted (receivedAmount.divQ ((10 : ℚ) ^ USDC_DECIMALS))
                transactionSignature,
             setAdd used transactionSignature)

/-- The result of one `verifyUSDCPayment` call: its verdict, the signature
set after the call, and the ledger fetches it performed. -/
structure VerifyResult where
  verdict : Verdict
  used : List String
  fetches : List String
deriving DecidableEq

/-- `verifyUSDCPayment` (src/server.js lines 38-166): the replay check on
`usedTransactionSignatures` runs synchronously before the awaited ledger
fetch; everything else is `verifyAfterFetch`. -/
def verifyUSDCPayment (env : Env) (ledger : Fetcher) (used : List String)
    (transactionSignature : String) (expectedAmountUSDC : ℚ) : VerifyResult :=
  if used.contains transactionSignature then
    ⟨.replayAttack, used, []⟩
  else
    let r := verifyAfterFetch env (ledger transactionSignature) used
      transactionSignature expectedAmountUSDC
    ⟨r.1, r.2, [transactionSignature]⟩

/-- The continuation after the fetch with the expected amount as the raw
JS value the middleware passes (`inventoryItem.price`, possibly
`undefined`): the same src/server.js lines 57-154, with the arithmetic of
lines 127-133 in NaN-propagating JS semantics — `undefined * 10^6` is
`NaN`, `Math.floor(NaN)` is `NaN`, and `receivedAmount < NaN` is `false`,
so an undefined price never triggers the insufficient-amount rejection.
On a defined price this agrees with `verifyAfterFetch`
(`verifyAfterFetchU_some`). -/
def verifyAfterFetchU (env : Env)
    (fetched : Except String (Option ParsedTransaction)) (used : List String)
    (transactionSignature : String) (expectedAmountUSDC : Option ℚ) :
    Verdict × List String :=
  match fetched with
  | .error e => (.verificationError e, used)
  | .ok none => (.txNotFound, used)
  | .ok (some transaction) =>
    if txFailedOrUnconfirmed transaction then (.txFailed, used)
    else
      match getOurUSDCTokenAccount env with
      | .error e => (.verificationError e, used)
      | .ok ourTokenAccountStr =>
        match findFirstPayment ourTokenAccountStr transaction.instructions with
        | none => (.wrongRecipient ourTokenAccountStr, used)
        | some amount =>
          let receivedAmount := parseIntJS amount
          let expectedBaseUnits :=
            ((jsNumOf expectedAmountUSDC).mulQ ((10 : ℚ) ^ USDC_DECIMALS)).floorJS
          let tolerance := expectedBaseUnits.mulQ (1 / 100)
          let minAmount := expectedBaseUnits.subN tolerance
          if receivedAmount.ltN minAmount then
            -- this branch needs `ltN = true`, hence a non-NaN `minAmount`,
            -- hence a defined price: the `getD` default is never read
            (.insufficientAmount (expectedAmountUSDC.getD 0)
              (receivedAmount.divQ ((10 : ℚ) ^ USDC_DECIMALS)), used)
          else
            (.accepted (receivedAmount.divQ ((10 : ℚ) ^ USDC_DECIMALS))
                transactionSignature,
             setAdd used transactionSignature)

/-- `verifyUSDCPayment` as called by the gate, with the expected amount a
possibly-`undefined` JS value (the gate can pass `undefined` when the item
resolves through the prototype chain). Agrees with `verifyUSDCPayment` on
every defined price (`verifyUSDCPaymentU_some`). -/
def verifyUSDCPaymentU (env : Env) (ledger : Fetcher) (used : List String)
    (transactionSignature : String) (expectedAmountUSDC : Option ℚ) :
    VerifyResult :=
  if used.contains transactionSignature then
    ⟨.replayAttack, used, []⟩
  else
    let r := verifyAfterFetchU env (ledger transactionSignature) used
      transactionSignature expectedAmountUSDC
    ⟨r.1, r.2, [transactionSignature]⟩

/-- One catalog entry, reduced to the field the payment logic of the gate reads
(`price`, in human USDC units). -/
structure InventoryItem where
  price : ℚ
deriving DecidableEq

/-- The `INVENTORY` object of src/server.js (lines 182-434): item keys in
insertion order with their prices. -/
def INVENTORY : List (String × InventoryItem) :=
  [("openai-python", ⟨(0.002 : ℚ)⟩),
   ("anthropic-claude", ⟨(0.002 : ℚ)⟩),
   ("langchain-python", ⟨(0.002 : ℚ)⟩),
   ("langchain-js", ⟨(0.002 : ℚ)⟩),
   ("huggingface-transformers", ⟨(0.002 : ℚ)⟩),
   ("stripe-node", ⟨(0.001 : ℚ)⟩),
   ("nextjs", ⟨(0.002 : ℚ)⟩),
   ("remix", ⟨(0.002 : ℚ)⟩),
   ("astro", ⟨(0.002 : ℚ)⟩),
   ("twilio-node", ⟨(0.001 : ℚ)⟩),
   ("sendgrid-node", ⟨(0.001 : ℚ)⟩),
   ("supabase-js", ⟨(0.002 : ℚ)⟩),
   ("mongodb-node", ⟨(0.001 : ℚ)⟩),
   ("planetscale-js", ⟨(0.001 : ℚ)⟩),
   ("prisma", ⟨(0.002 : ℚ)⟩),
   ("drizzle-orm", ⟨(0.002 : ℚ)⟩),
   ("vercel", ⟨(0.001 : ℚ)⟩),
   ("railway", ⟨(0.001 : ℚ)⟩),
   ("wagmi", ⟨(0.002 : ℚ)⟩),
   ("viem", ⟨(0.002 : ℚ)⟩),
   ("solana-web3", ⟨(0.002 : ℚ)⟩),
   ("ethers", ⟨(0.002 : ℚ)⟩),
   ("vitest", ⟨(0.001 : ℚ)⟩),
   ("playwright", ⟨(0.001 : ℚ)⟩),
   ("bundle-ai", ⟨(0.008 : ℚ)⟩),
   ("bundle-web3", ⟨(0.006 : ℚ)⟩),
   ("bundle-all", ⟨(0.025 : ℚ)⟩)]

/-- The value JavaScript property access `INVENTORY[item]` can produce on
the inventory object literal: an own property (a catalog entry), a
property inherited from `Object.prototype` (a truthy non-catalog value —
a method, or the prototype object itself for `__proto__` — whose `price`
is `undefined`), or `undefined`. Only `undefined` is falsy, so the
`if (!inventoryItem)` test at src/server.js line 457 lets inherited
properties through. -/
inductive PropValue where
  | own (item : InventoryItem)
  | inherited
  | undefined
deriving DecidableEq

/-- The `Object.prototype` property names visible through property access
on an object literal; every one of them is bound to a truthy value. -/
def OBJECT_PROTOTYPE_PROPS : List String :=
  ["constructor", "hasOwnProperty", "isPrototypeOf", "propertyIsEnumerable",
   "toLocaleString", "toString", "valueOf", "__proto__",
   "__defineGetter__", "__defineSetter__", "__lookupGetter__",
   "__lookupSetter__"]

/-- JavaScript property access `INVENTORY[item]` (src/server.js line 444):
own keys first, then the prototype chain, else `undefined`. -/
def inventoryGet (item : String) : PropValue :=
  match INVENTORY.lookup item with
  | some it => .own it
  | none =>
    if OBJECT_PROTOTYPE_PROPS.contains item then .inherited else .undefined

/-- The `.price` read the middleware performs on the looked-up value:
`undefined` on an inherited property (methods have no `price`). The
`undefined` case is unreachable behind the `if (!inventoryItem)` test. -/
def PropValue.price : PropValue → Option ℚ
  | .own it => some it.price
  | .inherited => none
  | .undefined => none

/-- The request fields the middleware reads (src/server.js lines 439-443):
the two headers, the two query parameters, and the `:item` route param. -/
structure Request where
  headerXPaymentProof : Option String
  headerAuthorization : Option String
  queryPaymentProof : Option String
  queryProof : Option String
  item : String
deriving DecidableEq

/-- JavaScript truthiness of an `undefined`-able string: `undefined` and
`""` are falsy. -/
def truthyStr : Option String → Bool
  | none => false
  | some s => !(s == "")

/-- JavaScript `a || b` on `undefined`-able strings. -/
def jsOrStr (a b : Option String) : Option String :=
  if truthyStr a then a else b

/-- The proof-extraction `||` chain (src/server.js lines 440-443):
`x-payment-proof` header, `authorization` header, `payment_proof` query
param, `proof` query param. -/
def extractPaymentProof (req : Request) : Option String :=
  jsOrStr (jsOrStr (jsOrStr req.headerXPaymentProof req.headerAuthorization)
    req.queryPaymentProof) req.queryProof

/-- The decision the middleware takes, one constructor per terminal branch
of `x402Middleware` (src/server.js lines 437-575). -/
inductive GateDecision where
  | notFound (available_items : List String)
  | challenge (item : String) (amount : Option ℚ)
  | allowBypass (item : String)
  | paymentFailed (code : Option String) (item : String)
  | allow (item : String) (paymentInfo : Verdict)
deriving DecidableEq

/-- HTTP status of each decision (`none` for the `next()` branches, where
the route handler answers 200). -/
def GateDecision.status : GateDecision → Option Nat
  | .notFound _ => some 404
  | .challenge _ _ => some 402
  | .allowBypass _ => none
  | .paymentFailed _ _ => some 402
  | .allow _ _ => none

/-- The result of one middleware run: its decision, the signature set after
the run, and whether `verifyUSDCPayment` was called. -/
structure MwResult where
  decision : GateDecision
  used : List String
  verifierCalled : Bool
deriving DecidableEq

/-- Mapping of a verifier result to a middleware result (src/server.js
lines 522-575): invalid verdicts become the 402 failure response carrying
the `code` of the verdict, a valid verdict attaches `req.paymentInfo` and calls
`next()`. -/
def verifyOutcome (item : String) (r : VerifyResult) : MwResult :=
  if r.verdict.valid then ⟨.allow item r.verdict, r.used, true⟩
  else ⟨.paymentFailed r.verdict.code item, r.used, true⟩

/-- `x402Middleware` (src/server.js lines 437-575): a falsy
`INVENTORY[item]` (own keys and `Object.prototype` properties are truthy)
→ 404 listing all inventory keys; no (truthy) proof → 402 challenge with
the `price` read off the looked-up value (`undefined` on a
prototype-chain hit); the `valid_proof` sentinel outside production →
`next()` bypass; otherwise delegate to the verifier with that possibly
`undefined` price. -/
def x402Middleware (env : Env) (nodeEnv : Option String) (ledger : Fetcher)
    (used : List String) (req : Request) : MwResult :=
  let paymentProof := extractPaymentProof req
  let inventoryItem := inventoryGet req.item
  if inventoryItem = .undefined then
    ⟨.notFound (INVENTORY.map Prod.fst), used, false⟩
  else if !truthyStr paymentProof then
    ⟨.challenge req.item inventoryItem.price, used, false⟩
  else if paymentProof == some "valid_proof" && !(nodeEnv == some "production") then
    ⟨.allowBypass req.item, used, false⟩
  else
    verifyOutcome req.item
      (verifyUSDCPaymentU env ledger used (paymentProof.getD "")
        inventoryItem.price)

/-!
Event-loop concurrency model for `verifyUSDCPayment`.

The JavaScript runtime is single-threaded: a task runs synchronously until
its next `await` and the shared `usedTransactionSignatures` set is read and
written without any lock. In `verifyUSDCPayment` the replay check (line 41)
runs before the awaited ledger fetch (line 52) and the set is mutated only
after the fetch resolves (line 148), with no recheck. A task verifying
signature `sig` therefore has two atomic segments, separated by the fetch
suspension point.
-/

/-- Program counter of one in-flight verification task. -/
inductive TaskPC where
  | preCheck
  | postFetch
  | finished (verdict : Verdict)
deriving DecidableEq

/-- One atomic segment of a verification task against the shared signature
set: `preCheck` is the synchronous prefix up to the fetch `await`
(src/server.js lines 41-55), `postFetch` is the continuation run when the
fetch resolves (lines 57-154). -/
def taskStep (env : Env) (ledger : Fetcher) (sig : String) (p : ℚ) :
    TaskPC → List String → TaskPC × List String
  | .preCheck, used =>
    if used.contains sig then (.finished .replayAttack, used)
    else (.postFetch, used)
  | .postFetch, used =>
    let r := verifyAfterFetch env (ledger sig) used sig p
    (.finished r.1, r.2)
  | .finished v, used => (.finished v, used)

/-- Run two concurrent verifications of the same signature under an
event-loop schedule: `false` steps task A, `true` steps task B; both share
the signature set. -/
def runSchedule (env : Env) (ledger : Fetcher) (sig : String) (p : ℚ) :
    List Bool → (TaskPC × TaskPC) × List String → (TaskPC × TaskPC) × List String
  | [], st => st
  | i :: rest, ((a, b), used) =>
    if i then
      let s := taskStep env ledger sig p b used
      runSchedule env ledger sig p rest ((a, s.1), s.2)
    else
      let s := taskStep env ledger sig p a used
      runSchedule env ledger sig p rest ((s.1, b), s.2)

/-- A sequence of verifier calls `(signature, expectedAmount)` threaded
through the shared signature set; returns the final set. -/
def runCalls (env : Env) (ledger : Fetcher) (used : List String) :
    List (String × ℚ) → List String
  | [] => used
  | c :: rest =>
    runCalls env ledger (verifyUSDCPayment env ledger used c.1 c.2).used rest

/-! Concrete test fixtures. -/

/-- A configured environment whose receiving USDC token account is
`"OurUSDCTokenAccount"`. -/
def demoEnv : Env := ⟨true, "OurUSDCTokenAccount"⟩

/-- A `transferChecked` of 1000 base units of USDC to the demo receiving
account. -/
def goodInstr : Instruction :=
  ⟨some "spl-token", some ⟨"transferChecked",
    ⟨some "OurUSDCTokenAccount", some USDC_MINT, some 1000, none⟩⟩⟩

/-- A plain `transfer` to a different account, carrying a large amount. -/
def otherInstr : Instruction :=
  ⟨some "spl-token", some ⟨"transfer",
    ⟨some "SomebodyElsesAccount", none, some 5000000, none⟩⟩⟩

/-- A `transfer` to the demo receiving account with no `info.amount` and no
`info.tokenAmount.amount`. -/
def noAmountInstr : Instruction :=
  ⟨some "spl-token", some ⟨"transfer",
    ⟨some "OurUSDCTokenAccount", none, none, none⟩⟩⟩

/-- A confirmed transaction paying 1000 base units to the demo account. -/
def txGood : ParsedTransaction := ⟨some ⟨false⟩, [goodInstr]⟩

/-- A confirmed transaction transferring only to another account. -/
def txElsewhere : ParsedTransaction := ⟨some ⟨false⟩, [otherInstr]⟩

/-- A confirmed transaction whose only qualifying transfer carries no
amount field. -/
def txNoAmount : ParsedTransaction := ⟨some ⟨false⟩, [noAmountInstr]⟩

/-- A confirmed transaction with a non-qualifying instruction before the
qualifying one and another after it. -/
def txMulti : ParsedTransaction :=
  ⟨some ⟨false⟩, [otherInstr, goodInstr, noAmountInstr]⟩

/-- A confirmed transaction paying `n` base units to the demo account via
`transferChecked` of USDC. -/
def txPay (n : Nat) : ParsedTransaction :=
  ⟨some ⟨false⟩,
   [⟨some "spl-token", some ⟨"transferChecked",
      ⟨some "OurUSDCTokenAccount", some USDC_MINT, some n, none⟩⟩⟩]⟩

/-- A ledger oracle answering every fetch with the given record. -/
def ledgerOf (tx : ParsedTransaction) : Fetcher := fun _ => .ok (some tx)

/-- A ledger oracle on which every fetch reports "transaction not found". -/
def ledgerNotFound : Fetcher := fun _ => .ok none

/-- A ledger oracle on which every fetch throws a transport error. -/
def ledgerDown : Fetcher := fun _ => .error "fetch failed"

/-- A request for `stripe-node` carrying proof `"sig-err"` in the
`x-payment-proof` header. -/
def reqErr : Request := ⟨some "sig-err", none, none, none, "stripe-node"⟩

/-- A request for `stripe-node` carrying the development sentinel proof. -/
def reqBypass : Request := ⟨some "valid_proof", none, none, none, "stripe-node"⟩

/-!
Helper lemmas about the state handling of the verifier.

These relate the signature set before and after a call; the claim theorems
below build on them.
-/

/-- On a defined price the generalized continuation agrees with
`verifyAfterFetch`: the NaN-propagating arithmetic collapses to the
rational one. -/
theorem verifyAfterFetchU_some (env : Env)
    (f : Except String (Option ParsedTransaction)) (used : List String)
    (sig : String) (p : ℚ) :
    verifyAfterFetchU env f used sig (some p) =
      verifyAfterFetch env f used sig p := by
  rcases f with e | otx
  · rfl
  rcases otx with _ | tx
  · rfl
  unfold verifyAfterFetchU verifyAfterFetch
  by_cases hfail : txFailedOrUnconfirmed tx
  · simp [hfail]
  · simp only [Bool.not_eq_true] at hfail
    simp only [hfail, Bool.false_eq_true, if_false]
    rcases hga : getOurUSDCTokenAccount env with e | our
    · simp only [hga]
    · simp only [hga]
      rcases hfp : findFirstPayment our tx.instructions with _ | amount
      · simp only [hfp]
      · simp only [hfp]
        cases amount with
        | none => rfl
        | some n => rfl

/-- On a defined price the generalized verifier agrees with
`verifyUSDCPayment`. -/
theorem verifyUSDCPaymentU_some (env : Env) (ledger : Fetcher)
    (used : List String) (sig : String) (p : ℚ) :
    verifyUSDCPaymentU env ledger used sig (some p) =
      verifyUSDCPayment env ledger used sig p := by
  unfold verifyUSDCPaymentU verifyUSDCPayment
  rw [verifyAfterFetchU_some]

/-- A catalog key resolves to its own property, before the prototype
chain is consulted. -/
theorem inventoryGet_own (i : String) (it : InventoryItem)
    (h : INVENTORY.lookup i = some it) : inventoryGet i = .own it := by
  unfold inventoryGet
  rw [h]

/-- An already-consumed signature short-circuits to the replay verdict:
same set, no fetch. -/
theorem verify_replay_of_mem (env : Env) (ledger : Fetcher) (used : List String)
    (sig : String) (p : ℚ) (h : sig ∈ used) :
    verifyUSDCPayment env ledger used sig p = ⟨.replayAttack, used, []⟩ := by
  simp [verifyUSDCPayment, h]

/-- The verified signature is in the set after `setAdd`. -/
theorem setAdd_self_mem (s : List String) (x : String) : x ∈ setAdd s x := by
  by_cases h : x ∈ s <;> simp [setAdd, h]

/-- `setAdd` preserves membership. -/
theorem setAdd_mem_mono (s : List String) (x y : String) (h : y ∈ s) :
    y ∈ setAdd s x := by
  by_cases hx : x ∈ s <;> simp [setAdd, hx, h]

/-- The continuation after the fetch either rejects and leaves the set
unchanged, or accepts and adds the verified signature. -/
theorem verifyAfterFetch_state_cases (env : Env)
    (f : Except String (Option ParsedTransaction)) (used : List String)
    (sig : String) (p : ℚ) :
    ((verifyAfterFetch env f used sig p).1.valid = false ∧
      (verifyAfterFetch env f used sig p).2 = used) ∨
    ((verifyAfterFetch env f used sig p).1.valid = true ∧
      (verifyAfterFetch env f used sig p).2 = setAdd used sig) := by
  unfold verifyAfterFetch
  split
  · exact Or.inl ⟨rfl, rfl⟩
  · exact Or.inl ⟨rfl, rfl⟩
  · split
    · exact Or.inl ⟨rfl, rfl⟩
    · split
      · exact Or.inl ⟨rfl, rfl⟩
      · split
        · exact Or.inl ⟨rfl, rfl⟩
        · dsimp only
          split
          · exact Or.inl ⟨rfl, rfl⟩
          · exact Or.inr ⟨rfl, rfl⟩

/-- The continuation after the fetch leaves the set unchanged on every
rejection path. -/
theorem verifyAfterFetch_invalid_state (env : Env)
    (f : Except String (Option ParsedTransaction)) (used : List String)
    (sig : String) (p : ℚ)
    (h : (verifyAfterFetch env f used sig p).1.valid = false) :
    (verifyAfterFetch env f used sig p).2 = used := by
  rcases verifyAfterFetch_state_cases env f used sig p with ⟨_, h2⟩ | ⟨h1, _⟩
  · exact h2
  · rw [h1] at h; exact absurd h (by simp)

/-- The continuation after the fetch adds the verified signature to the set
on the accepting path. -/
theorem verifyAfterFetch_valid_mem (env : Env)
    (f : Except String (Option ParsedTransaction)) (used : List String)
    (sig : String) (p : ℚ)
    (h : (verifyAfterFetch env f used sig p).1.valid = true) :
    sig ∈ (verifyAfterFetch env f used sig p).2 := by
  rcases verifyAfterFetch_state_cases env f used sig p with ⟨h1, _⟩ | ⟨_, h2⟩
  · rw [h1] at h; exact absurd h (by simp)
  · rw [h2]; exact setAdd_self_mem used sig

/-- Membership in the signature set is preserved by any verifier call. -/
theorem verify_mem_mono (env : Env) (ledger : Fetcher) (used : List String)
    (sig x : String) (p : ℚ) (h : x ∈ used) :
    x ∈ (verifyUSDCPayment env ledger used sig p).used := by
  by_cases hc : sig ∈ used
  · simpa [verify_replay_of_mem env ledger used sig p hc]
  · have hexp : (verifyUSDCPayment env ledger used sig p).used =
        (verifyAfterFetch env (ledger sig) used sig p).2 := by
      simp [verifyUSDCPayment, hc]
    rw [hexp]
    rcases verifyAfterFetch_state_cases env (ledger sig) used sig p with
      ⟨_, h2⟩ | ⟨_, h2⟩ <;> rw [h2]
    · exact h
    · exact setAdd_mem_mono used sig x h

/-- Membership in the signature set is preserved by any sequence of
verifier calls. -/
theorem runCalls_mem_mono (env : Env) (ledger : Fetcher) (x : String) :
    ∀ (calls : List (String × ℚ)) (used : List String), x ∈ used →
      x ∈ runCalls env ledger used calls := by
  intro calls
  induction calls with
  | nil => intro used h; simpa [runCalls]
  | cons c rest ih =>
    intro used h
    simp only [runCalls]
    exact ih _ (verify_mem_mono env ledger used c.1 x c.2 h)

/-- An accepting verifier call leaves the verified signature in the set. -/
theorem verify_valid_mem (env : Env) (ledger : Fetcher) (used : List String)
    (sig : String) (p : ℚ)
    (h : (verifyUSDCPayment env ledger used sig p).verdict.valid = true) :
    sig ∈ (verifyUSDCPayment env ledger used sig p).used := by
  by_cases hc : sig ∈ used
  · simpa [verify_replay_of_mem env ledger used sig p hc]
  · have hv : (verifyUSDCPayment env ledger used sig p).verdict =
        (verifyAfterFetch env (ledger sig) used sig p).1 := by
      simp [verifyUSDCPayment, hc]
    have hu : (verifyUSDCPayment env ledger used sig p).used =
        (verifyAfterFetch env (ledger sig) used sig p).2 := by
      simp [verifyUSDCPayment, hc]
    rw [hv] at h
    rw [hu]
    exact verifyAfterFetch_valid_mem env (ledger sig) used sig p h

/-- Running the two segments of a single task back to back is exactly a
(sequential) `verifyUSDCPayment` call: the interleaving machine refines the
verifier. -/
theorem taskStep_seq_eq_verify (env : Env) (ledger : Fetcher) (sig : String)
    (p : ℚ) (used : List String) :
    taskStep env ledger sig p (taskStep env ledger sig p .preCheck used).1
        (taskStep env ledger sig p .preCheck used).2 =
      (.finished (verifyUSDCPayment env ledger used sig p).verdict,
       (verifyUSDCPayment env ledger used sig p).used) := by
  by_cases h : sig ∈ used
  · simp [taskStep, verifyUSDCPayment, h]
  · simp [taskStep, verifyUSDCPayment, h]

/-- A list in which no instruction has our account as destination yields no
payment: the destination test of the scan fails on every element. -/
theorem findFirstPayment_none_of_no_dest (our : String) (l : List Instruction)
    (h : ∀ i ∈ l, ∀ pr, i.parsed = some pr →
      pr.info.destination ≠ some our) :
    findFirstPayment our l = none := by
  induction l with
  | nil => rfl
  | cons i rest ih =>
    have hq : instrQualifies our i = false := by
      unfold instrQualifies
      cases hp : i.parsed with
      | none => rfl
      | some pr =>
        have hne := h i (by simp) pr hp
        simp [hne]
    simp only [findFirstPayment, hq, Bool.false_eq_true, if_false]
    exact ih (fun j hj pr hpr => h j (by simp [hj]) pr hpr)

/-- The scan over a non-qualifying prefix, a qualifying instruction and an
arbitrary suffix returns the amount of the qualifying instruction. -/
theorem findFirstPayment_append (our : String) (pre rest : List Instruction)
    (q : Instruction)
    (hpre : ∀ i ∈ pre, instrQualifies our i = false)
    (hq : instrQualifies our q = true) :
    findFirstPayment our (pre ++ q :: rest) = some (instrAmount q) := by
  induction pre with
  | nil => simp [findFirstPayment, hq]
  | cons i ps ih =>
    have hi : instrQualifies our i = false := hpre i (by simp)
    simp only [List.cons_append, findFirstPayment, hi, Bool.false_eq_true,
      if_false]
    exact ih (fun j hj => hpre j (by simp [hj]))

/-- Once the replay, fetch, confirmation, wallet and scan stages are fixed,
`verifyUSDCPayment` is exactly the amount comparison against
`expectedBaseUnits − 1% of expectedBaseUnits` applied to the scanned
amount. -/
theorem verify_amount_stage (env : Env) (ledger : Fetcher) (used : List String)
    (sig : String) (p : ℚ) (tx : ParsedTransaction) (amt : Option Nat)
    (hfresh : sig ∉ used)
    (hfetch : ledger sig = .ok (some tx))
    (hconf : txFailedOrUnconfirmed tx = false)
    (hwallet : env.walletConfigured = true)
    (hfind : findFirstPayment env.ourTokenAccount tx.instructions = some amt) :
    verifyUSDCPayment env ledger used sig p =
      if (parseIntJS amt).ltQ ((⌊p * (10 : ℚ) ^ USDC_DECIMALS⌋ : ℚ) -
          (⌊p * (10 : ℚ) ^ USDC_DECIMALS⌋ : ℚ) * (1 / 100)) then
        ⟨.insufficientAmount p ((parseIntJS amt).divQ ((10 : ℚ) ^ USDC_DECIMALS)),
         used, [sig]⟩
      else
        ⟨.accepted ((parseIntJS amt).divQ ((10 : ℚ) ^ USDC_DECIMALS)) sig,
         setAdd used sig, [sig]⟩ := by
  simp [verifyUSDCPayment, hfresh, verifyAfterFetch, hfetch, hconf, hwallet,
    hfind, getOurUSDCTokenAccount]
  split <;> rfl

/-! Claim theorems. -/

/-- C1: Replay invariant — once `verifyUSDCPayment` has returned an
Accepted verdict (`valid = true`) for a proof identifier, every subsequent
call with that identifier (after any sequence of intermediate calls, with
any expected amount, and regardless of what the ledger would return)
returns the `REPLAY_ATTACK` rejection, leaves the set unchanged, and
performs no ledger fetch. -/
theorem replay_invariant (env : Env) (ledger : Fetcher) (used : List String)
    (sig : String) (p : ℚ)
    (hacc : (verifyUSDCPayment env ledger used sig p).verdict.valid = true)
    (calls : List (String × ℚ)) (env2 : Env) (ledger2 : Fetcher) (p2 : ℚ) :
    verifyUSDCPayment env2 ledger2
        (runCalls env ledger (verifyUSDCPayment env ledger used sig p).used calls)
        sig p2 =
      ⟨.replayAttack,
       runCalls env ledger (verifyUSDCPayment env ledger used sig p).used calls,
       []⟩ :=
  verify_replay_of_mem env2 ledger2 _ sig p2
    (runCalls_mem_mono env ledger sig calls _
      (verify_valid_mem env ledger used sig p hacc))

/-- Witness for `replay_invariant`: a first accepted verification of
`"tx-good"`, one unrelated later call, then a replay attempt with a
different amount against a ledger that would report not-found. -/
theorem replay_invariant_witness :
    (verifyUSDCPayment demoEnv (ledgerOf txGood) [] "tx-good"
        (0.001 : ℚ)).verdict.valid = true ∧
    verifyUSDCPayment demoEnv ledgerNotFound
        (runCalls demoEnv (ledgerOf txGood)
          (verifyUSDCPayment demoEnv (ledgerOf txGood) [] "tx-good"
            (0.001 : ℚ)).used
          [("other-tx", (0.002 : ℚ))]) "tx-good" (0.025 : ℚ) =
      ⟨.replayAttack,
       runCalls demoEnv (ledgerOf txGood)
         (verifyUSDCPayment demoEnv (ledgerOf txGood) [] "tx-good"
           (0.001 : ℚ)).used
         [("other-tx", (0.002 : ℚ))], []⟩ :=
  ⟨by norm_num [verifyUSDCPayment, verifyAfterFetch, ledgerOf, txGood, goodInstr,
      demoEnv, getOurUSDCTokenAccount, findFirstPayment, instrQualifies,
      instrAmount, jsOrNat, parseIntJS, JSNum.ltQ, txFailedOrUnconfirmed,
      Verdict.valid, USDC_MINT, USDC_DECIMALS],
   replay_invariant demoEnv (ledgerOf txGood) [] "tx-good" (0.001 : ℚ)
     (by norm_num [verifyUSDCPayment, verifyAfterFetch, ledgerOf, txGood,
        goodInstr, demoEnv, getOurUSDCTokenAccount, findFirstPayment,
        instrQualifies, instrAmount, jsOrNat, parseIntJS, JSNum.ltQ,
        txFailedOrUnconfirmed, Verdict.valid, USDC_MINT, USDC_DECIMALS])
     [("other-tx", (0.002 : ℚ))] demoEnv ledgerNotFound (0.025 : ℚ)⟩

/-- C2 (refutation of the claimed exclusion on the code as written): under
the event-loop schedule in which both tasks run their synchronous replay
check before either awaited ledger fetch resolves, two concurrent
verifications of the same never-before-seen proof `"tx-good"` — against a
ledger record satisfying the recipient and amount constraints — both
return an Accepted verdict: the `usedTransactionSignatures` check
(src/server.js line 41) and the `add` (line 148) are separated by an
`await` with no recheck, so N = 2 accepted outcomes are possible. -/
theorem concurrent_double_accept :
    (runSchedule demoEnv (ledgerOf txGood) "tx-good" (0.001 : ℚ)
        [false, true, false, true] ((.preCheck, .preCheck), [])).1 =
      (.finished (.accepted (.num (1/1000)) "tx-good"),
       .finished (.accepted (.num (1/1000)) "tx-good")) := by
  norm_num [runSchedule, taskStep, verifyAfterFetch, ledgerOf, txGood, goodInstr,
    demoEnv, getOurUSDCTokenAccount, findFirstPayment, instrQualifies,
    instrAmount, jsOrNat, parseIntJS, JSNum.ltQ, JSNum.divQ,
    txFailedOrUnconfirmed, setAdd, USDC_MINT, USDC_DECIMALS]

/-- C6: every rejecting execution of `verifyUSDCPayment` leaves the
consumed-signature set exactly as it was, so verifying the same invalid
proof again under the same ledger responses repeats the identical
verdict. -/
theorem rejection_stateless (env : Env) (ledger : Fetcher) (used : List String)
    (sig : String) (p : ℚ)
    (hrej : (verifyUSDCPayment env ledger used sig p).verdict.valid = false) :
    (verifyUSDCPayment env ledger used sig p).used = used ∧
    verifyUSDCPayment env ledger (verifyUSDCPayment env ledger used sig p).used
        sig p = verifyUSDCPayment env ledger used sig p := by
  have hst : (verifyUSDCPayment env ledger used sig p).used = used := by
    by_cases hc : sig ∈ used
    · simp [verify_replay_of_mem env ledger used sig p hc]
    · have hv : (verifyUSDCPayment env ledger used sig p).verdict =
          (verifyAfterFetch env (ledger sig) used sig p).1 := by
        simp [verifyUSDCPayment, hc]
      have hu : (verifyUSDCPayment env ledger used sig p).used =
          (verifyAfterFetch env (ledger sig) used sig p).2 := by
        simp [verifyUSDCPayment, hc]
      rw [hu]
      exact verifyAfterFetch_invalid_state env (ledger sig) used sig p
        (hv ▸ hrej)
  exact ⟨hst, by rw [hst]⟩

/-- Witness for `rejection_stateless`: a proof the ledger does not know is
rejected (`TX_NOT_FOUND`) without touching the set, and re-verifying it
gives the identical result. -/
theorem rejection_stateless_witness :
    (verifyUSDCPayment demoEnv ledgerNotFound [] "missing-tx"
        (0.001 : ℚ)).verdict.valid = false ∧
    ((verifyUSDCPayment demoEnv ledgerNotFound [] "missing-tx"
        (0.001 : ℚ)).used = [] ∧
     verifyUSDCPayment demoEnv ledgerNotFound
         (verifyUSDCPayment demoEnv ledgerNotFound [] "missing-tx"
           (0.001 : ℚ)).used "missing-tx" (0.001 : ℚ) =
       verifyUSDCPayment demoEnv ledgerNotFound [] "missing-tx" (0.001 : ℚ)) :=
  ⟨by simp [verifyUSDCPayment, verifyAfterFetch, ledgerNotFound, Verdict.valid],
   rejection_stateless demoEnv ledgerNotFound [] "missing-tx" (0.001 : ℚ)
     (by simp [verifyUSDCPayment, verifyAfterFetch, ledgerNotFound,
        Verdict.valid])⟩

/-- C8 (refutation on the code as written): the JS property access
`INVENTORY[item]` also hits `Object.prototype`, so for the non-inventory
item `"constructor"` the gate does not answer 404: with no proof attached
it issues the 402 challenge with an `undefined` amount, and with a proof
attached it calls the verifier with an `undefined` expected price — whose
`NaN` tolerance threshold rejects nothing — so a qualifying transfer of
any size is Accepted and its signature is consumed. -/
theorem unknown_item_prototype_no_404 :
    INVENTORY.lookup "constructor" = none ∧
    x402Middleware demoEnv none (ledgerOf txGood) []
        ⟨none, none, none, none, "constructor"⟩ =
      ⟨.challenge "constructor" none, [], false⟩ ∧
    x402Middleware demoEnv none (ledgerOf txGood) []
        ⟨some "tx-good", none, none, none, "constructor"⟩ =
      ⟨.allow "constructor" (.accepted (.num (1/1000)) "tx-good"),
       ["tx-good"], true⟩ := by
  refine ⟨rfl, rfl, ?_⟩
  have hg : inventoryGet "constructor" = .inherited := rfl
  have hp : extractPaymentProof ⟨some "tx-good", none, none, none,
      "constructor"⟩ = some "tx-good" := rfl
  have ht : truthyStr (some "tx-good") = true := rfl
  have hb : ((some "tx-good" : Option String) == some "valid_proof") =
      false := rfl
  norm_num [x402Middleware, hg, hp, ht, hb, PropValue.price,
    verifyUSDCPaymentU, verifyAfterFetchU, ledgerOf, txGood, goodInstr,
    demoEnv, getOurUSDCTokenAccount, findFirstPayment, instrQualifies,
    instrAmount, jsOrNat, parseIntJS, jsNumOf, JSNum.mulQ, JSNum.floorJS,
    JSNum.subN, JSNum.ltN, JSNum.divQ, txFailedOrUnconfirmed, setAdd,
    verifyOutcome, Verdict.valid, USDC_MINT, USDC_DECIMALS]
  exact fun h => PropValue.noConfusion h

/-- C9: on a known item with the sentinel proof `"valid_proof"`, the gate
bypasses payment verification exactly when `NODE_ENV` is not
`"production"`; in production mode the sentinel goes through ordinary
verification instead. -/
theorem dev_bypass_gating (env : Env) (nodeEnv : Option String)
    (ledger : Fetcher) (used : List String) (req : Request)
    (item : InventoryItem)
    (hitem : INVENTORY.lookup req.item = some item)
    (hproof : extractPaymentProof req = some "valid_proof") :
    (nodeEnv ≠ some "production" →
      x402Middleware env nodeEnv ledger used req =
        ⟨.allowBypass req.item, used, false⟩) ∧
    (nodeEnv = some "production" →
      x402Middleware env nodeEnv ledger used req =
        verifyOutcome req.item
          (verifyUSDCPayment env ledger used "valid_proof" item.price)) ∧
    (x402Middleware env nodeEnv ledger used req).verifierCalled =
      (nodeEnv == some "production") := by
  have hg : inventoryGet req.item = .own item :=
    inventoryGet_own req.item item hitem
  have h1 : nodeEnv ≠ some "production" →
      x402Middleware env nodeEnv ledger used req =
        ⟨.allowBypass req.item, used, false⟩ := by
    intro hne
    simp [x402Middleware, hg, hproof, truthyStr, hne, PropValue.price]
  have h2 : nodeEnv = some "production" →
      x402Middleware env nodeEnv ledger used req =
        verifyOutcome req.item
          (verifyUSDCPayment env ledger used "valid_proof" item.price) := by
    intro heq
    simp [x402Middleware, hg, hproof, truthyStr, heq, PropValue.price,
      verifyUSDCPaymentU_some]
  refine ⟨h1, h2, ?_⟩
  by_cases hp : nodeEnv = some "production"
  · rw [h2 hp, hp]
    unfold verifyOutcome
    split <;> simp
  · rw [h1 hp]
    simp [hp]

/-- Witness for `dev_bypass_gating`: the sentinel request on
`stripe-node`, once with `NODE_ENV` unset (bypass taken) and once with
`NODE_ENV = "production"` (ordinary verification). -/
theorem dev_bypass_gating_witness :
    INVENTORY.lookup reqBypass.item = some ⟨(0.001 : ℚ)⟩ ∧
    x402Middleware demoEnv none ledgerNotFound [] reqBypass =
      ⟨.allowBypass "stripe-node", [], false⟩ ∧
    x402Middleware demoEnv (some "production") ledgerNotFound [] reqBypass =
      verifyOutcome "stripe-node"
        (verifyUSDCPayment demoEnv ledgerNotFound [] "valid_proof"
          (InventoryItem.mk (0.001 : ℚ)).price) :=
  ⟨rfl,
   (dev_bypass_gating demoEnv none ledgerNotFound [] reqBypass ⟨(0.001 : ℚ)⟩
      rfl rfl).1 (by simp),
   ((dev_bypass_gating demoEnv (some "production") ledgerNotFound [] reqBypass
      ⟨(0.001 : ℚ)⟩ rfl rfl).2).1 rfl⟩

/-- C10: a confirmed transaction whose first qualifying transfer to the
configured token account carries neither `info.amount` nor
`info.tokenAmount.amount` is Accepted for every positive expected amount:
`parseInt` yields `NaN`, `NaN < minAmount` is `false`, and the verdict
reports `amountReceived = NaN` — the insufficient-amount check never
rejects an unparseable amount. -/
theorem missing_amount_accepted (ledger : Fetcher) (used : List String)
    (sig : String) (p : ℚ)
    (hfresh : sig ∉ used)
    (hfetch : ledger sig = .ok (some txNoAmount))
    (hpos : 0 < p) :
    verifyUSDCPayment demoEnv ledger used sig p =
      ⟨.accepted JSNum.nan sig, setAdd used sig, [sig]⟩ := by
  simp [verifyUSDCPayment, hfresh, verifyAfterFetch, hfetch, txNoAmount,
    noAmountInstr, txFailedOrUnconfirmed, getOurUSDCTokenAccount, demoEnv,
    findFirstPayment, instrQualifies, instrAmount, jsOrNat, parseIntJS,
    JSNum.ltQ, JSNum.divQ, USDC_MINT]

/-- Witness for `missing_amount_accepted`: the amount-less transaction
`"tx-na"` against expected amount 1 USDC. -/
theorem missing_amount_accepted_witness :
    ("tx-na" ∉ ([] : List String)) ∧ (0 : ℚ) < 1 ∧
    verifyUSDCPayment demoEnv (ledgerOf txNoAmount) [] "tx-na" (1 : ℚ) =
      ⟨.accepted JSNum.nan "tx-na", setAdd [] "tx-na", ["tx-na"]⟩ :=
  ⟨by simp, by norm_num,
   missing_amount_accepted (ledgerOf txNoAmount) [] "tx-na" (1 : ℚ)
     (by simp) rfl (by norm_num)⟩

/-- C3: tolerance band boundary — with `expectedBaseUnits =
⌊expectedAmount × 10^6⌋`, a scanned received amount `r` is Accepted when
`r` is at or above `expectedBaseUnits − 1% of expectedBaseUnits` and
rejected as `INSUFFICIENT_AMOUNT` when strictly below that floor. -/
theorem tolerance_band (env : Env) (ledger : Fetcher) (used : List String)
    (sig : String) (p : ℚ) (tx : ParsedTransaction) (r : ℕ)
    (hfresh : sig ∉ used)
    (hfetch : ledger sig = .ok (some tx))
    (hconf : txFailedOrUnconfirmed tx = false)
    (hwallet : env.walletConfigured = true)
    (hfind : findFirstPayment env.ourTokenAccount tx.instructions =
      some (some r)) :
    (((⌊p * (10 : ℚ) ^ USDC_DECIMALS⌋ : ℚ) -
        (⌊p * (10 : ℚ) ^ USDC_DECIMALS⌋ : ℚ) * (1 / 100)) ≤ (r : ℚ) →
      verifyUSDCPayment env ledger used sig p =
        ⟨.accepted (.num ((r : ℚ) / (10 : ℚ) ^ USDC_DECIMALS)) sig,
         setAdd used sig, [sig]⟩) ∧
    ((r : ℚ) < ((⌊p * (10 : ℚ) ^ USDC_DECIMALS⌋ : ℚ) -
        (⌊p * (10 : ℚ) ^ USDC_DECIMALS⌋ : ℚ) * (1 / 100)) →
      verifyUSDCPayment env ledger used sig p =
        ⟨.insufficientAmount p (.num ((r : ℚ) / (10 : ℚ) ^ USDC_DECIMALS)),
         used, [sig]⟩) := by
  rw [verify_amount_stage env ledger used sig p tx (some r) hfresh hfetch hconf
    hwallet hfind]
  constructor
  · intro hge
    have hb : ¬((parseIntJS (some r)).ltQ
        ((⌊p * (10 : ℚ) ^ USDC_DECIMALS⌋ : ℚ) -
          (⌊p * (10 : ℚ) ^ USDC_DECIMALS⌋ : ℚ) * (1 / 100)) = true) := by
      simp only [parseIntJS, JSNum.ltQ, decide_eq_true_eq, not_lt]
      exact hge
    rw [if_neg hb]
    simp [parseIntJS, JSNum.divQ]
  · intro hlt
    have hb : (parseIntJS (some r)).ltQ
        ((⌊p * (10 : ℚ) ^ USDC_DECIMALS⌋ : ℚ) -
          (⌊p * (10 : ℚ) ^ USDC_DECIMALS⌋ : ℚ) * (1 / 100)) = true := by
      simp only [parseIntJS, JSNum.ltQ, decide_eq_true_eq]
      exact hlt
    rw [if_pos hb]
    simp [parseIntJS, JSNum.divQ]

/-- Witness for `tolerance_band`: expectedBaseUnits = 1,000,000 (expected
amount 1 USDC) — 990,000 base units are accepted, 989,999 are rejected as
insufficient. -/
theorem tolerance_band_witness :
    verifyUSDCPayment demoEnv (ledgerOf (txPay 990000)) [] "tx-990000"
        (1 : ℚ) =
      ⟨.accepted (.num ((990000 : ℚ) / (10 : ℚ) ^ USDC_DECIMALS)) "tx-990000",
       setAdd [] "tx-990000", ["tx-990000"]⟩ ∧
    verifyUSDCPayment demoEnv (ledgerOf (txPay 989999)) [] "tx-989999"
        (1 : ℚ) =
      ⟨.insufficientAmount 1 (.num ((989999 : ℚ) / (10 : ℚ) ^ USDC_DECIMALS)),
       [], ["tx-989999"]⟩ :=
  ⟨(tolerance_band demoEnv (ledgerOf (txPay 990000)) [] "tx-990000" 1
      (txPay 990000) 990000 (by simp) rfl rfl rfl rfl).1
      (by norm_num [USDC_DECIMALS]),
   (tolerance_band demoEnv (ledgerOf (txPay 989999)) [] "tx-989999" 1
      (txPay 989999) 989999 (by simp) rfl rfl rfl rfl).2
      (by norm_num [USDC_DECIMALS])⟩

/-- C4: first-qualifying-instruction scan — the amount credited is that of
the first instruction, in recorded order, that is an `spl-token`
`transfer`/`transferChecked` to the configured token account (with the
USDC-mint condition on `transferChecked`); the verdict is unchanged under
any replacement of the non-qualifying prefix and of everything after the
first qualifying instruction. -/
theorem first_qualifying_scan (env : Env) (ledger : Fetcher)
    (used : List String) (sig : String) (p : ℚ) (tx : ParsedTransaction)
    (pre rest : List Instruction) (q : Instruction)
    (hfresh : sig ∉ used)
    (hfetch : ledger sig = .ok (some tx))
    (hconf : txFailedOrUnconfirmed tx = false)
    (hwallet : env.walletConfigured = true)
    (hinstr : tx.instructions = pre ++ q :: rest)
    (hpre : ∀ i ∈ pre, instrQualifies env.ourTokenAccount i = false)
    (hq : instrQualifies env.ourTokenAccount q = true) :
    findFirstPayment env.ourTokenAccount tx.instructions =
      some (instrAmount q) ∧
    ∀ (ledger2 : Fetcher) (pre2 rest2 : List Instruction),
      ledger2 sig = .ok (some ⟨tx.meta, pre2 ++ q :: rest2⟩) →
      (∀ i ∈ pre2, instrQualifies env.ourTokenAccount i = false) →
      verifyUSDCPayment env ledger2 used sig p =
        verifyUSDCPayment env ledger used sig p := by
  have h1 : findFirstPayment env.ourTokenAccount tx.instructions =
      some (instrAmount q) := by
    rw [hinstr]
    exact findFirstPayment_append env.ourTokenAccount pre rest q hpre hq
  refine ⟨h1, ?_⟩
  intro ledger2 pre2 rest2 hfetch2 hpre2
  have hconf2 :
      txFailedOrUnconfirmed ⟨tx.meta, pre2 ++ q :: rest2⟩ = false := hconf
  have h2 : findFirstPayment env.ourTokenAccount
      (ParsedTransaction.mk tx.meta (pre2 ++ q :: rest2)).instructions =
      some (instrAmount q) :=
    findFirstPayment_append env.ourTokenAccount pre2 rest2 q hpre2 hq
  rw [verify_amount_stage env ledger2 used sig p _ (instrAmount q) hfresh
      hfetch2 hconf2 hwallet h2,
    verify_amount_stage env ledger used sig p tx (instrAmount q) hfresh hfetch
      hconf hwallet h1]

/-- Witness for `first_qualifying_scan`: a transaction whose instructions
are a transfer to another account, then the qualifying USDC transfer, then
an amount-less transfer — the scan returns the amount of the qualifying
instruction. -/
theorem first_qualifying_scan_witness :
    instrQualifies demoEnv.ourTokenAccount goodInstr = true ∧
    findFirstPayment demoEnv.ourTokenAccount txMulti.instructions =
      some (instrAmount goodInstr) :=
  ⟨rfl,
   (first_qualifying_scan demoEnv (ledgerOf txMulti) [] "tx-multi" (0.001 : ℚ)
      txMulti [otherInstr] [noAmountInstr] goodInstr (by simp) rfl rfl rfl rfl
      (by decide) rfl).1⟩

/-- C5: wrong-recipient precedence — a confirmed transaction whose
instructions all target accounts other than the configured token account is
rejected as `WRONG_RECIPIENT` (carrying the correct receiving address) for
every expected amount, before any amount comparison. -/
theorem wrong_recipient_precedence (env : Env) (ledger : Fetcher)
    (used : List String) (sig : String) (tx : ParsedTransaction)
    (hfresh : sig ∉ used)
    (hfetch : ledger sig = .ok (some tx))
    (hconf : txFailedOrUnconfirmed tx = false)
    (hwallet : env.walletConfigured = true)
    (hdest : ∀ i ∈ tx.instructions, ∀ pr, i.parsed = some pr →
      pr.info.destination ≠ some env.ourTokenAccount) :
    ∀ p : ℚ, verifyUSDCPayment env ledger used sig p =
      ⟨.wrongRecipient env.ourTokenAccount, used, [sig]⟩ := by
  intro p
  have hfp := findFirstPayment_none_of_no_dest env.ourTokenAccount
    tx.instructions hdest
  simp [verifyUSDCPayment, hfresh, verifyAfterFetch, hfetch, hconf, hwallet,
    hfp, getOurUSDCTokenAccount]

/-- Witness for `wrong_recipient_precedence`: a transaction transferring
5,000,000 base units to an unrelated account is rejected as
`WRONG_RECIPIENT` even though the amount would cover the price. -/
theorem wrong_recipient_precedence_witness :
    (∀ i ∈ txElsewhere.instructions, ∀ pr, i.parsed = some pr →
      pr.info.destination ≠ some demoEnv.ourTokenAccount) ∧
    verifyUSDCPayment demoEnv (ledgerOf txElsewhere) [] "tx-elsewhere"
        (0.001 : ℚ) =
      ⟨.wrongRecipient demoEnv.ourTokenAccount, [], ["tx-elsewhere"]⟩ := by
  have hdest : ∀ i ∈ txElsewhere.instructions, ∀ pr, i.parsed = some pr →
      pr.info.destination ≠ some demoEnv.ourTokenAccount := by
    intro i hi pr hpr
    simp only [txElsewhere] at hi
    rw [List.mem_singleton] at hi
    subst hi
    simp only [otherInstr] at hpr
    injection hpr with h
    subst h
    simp [demoEnv]
  exact ⟨hdest,
    wrong_recipient_precedence demoEnv (ledgerOf txElsewhere) []
      "tx-elsewhere" txElsewhere (by simp) rfl rfl rfl hdest (0.001 : ℚ)⟩

/-- C7: fault downgrade — a thrown fault (ledger transport error, or
unconfigured wallet after a successful fetch) makes `verifyUSDCPayment`
return a rejection with code `VERIFICATION_ERROR` (never acceptance, state
unchanged), and the gate maps it to a well-formed 402 response. -/
theorem fault_downgrade (env : Env) (ledger : Fetcher) (used : List String)
    (sig : String) (e : String)
    (hfresh : sig ∉ used)
    (hfault : ledger sig = .error e ∨
      (env.walletConfigured = false ∧
        ∃ tx, ledger sig = .ok (some tx) ∧ txFailedOrUnconfirmed tx = false)) :
    (∀ p : ℚ,
      (verifyUSDCPayment env ledger used sig p).verdict.valid = false ∧
      (verifyUSDCPayment env ledger used sig p).verdict.code =
        some "VERIFICATION_ERROR" ∧
      (verifyUSDCPayment env ledger used sig p).used = used) ∧
    ∀ (nodeEnv : Option String) (req : Request) (item : InventoryItem),
      INVENTORY.lookup req.item = some item →
      extractPaymentProof req = some sig →
      sig ≠ "" → sig ≠ "valid_proof" →
      (x402Middleware env nodeEnv ledger used req).decision =
        .paymentFailed (some "VERIFICATION_ERROR") req.item ∧
      (x402Middleware env nodeEnv ledger used req).decision.status =
        some 402 := by
  have hmain : ∀ p : ℚ,
      (verifyUSDCPayment env ledger used sig p).verdict.valid = false ∧
      (verifyUSDCPayment env ledger used sig p).verdict.code =
        some "VERIFICATION_ERROR" ∧
      (verifyUSDCPayment env ledger used sig p).used = used := by
    intro p
    rcases hfault with hf | ⟨hw, tx, hf, hc⟩
    · simp [verifyUSDCPayment, hfresh, verifyAfterFetch, hf, Verdict.valid,
        Verdict.code]
    · simp [verifyUSDCPayment, hfresh, verifyAfterFetch, hf, hc, hw,
        getOurUSDCTokenAccount, Verdict.valid, Verdict.code]
  refine ⟨hmain, ?_⟩
  intro nodeEnv req item hitem hproof hne hnv
  have hg : inventoryGet req.item = .own item :=
    inventoryGet_own req.item item hitem
  have hmw : x402Middleware env nodeEnv ledger used req =
      verifyOutcome req.item
        (verifyUSDCPayment env ledger used sig item.price) := by
    simp [x402Middleware, hg, hproof, truthyStr, hne, hnv, PropValue.price,
      verifyUSDCPaymentU_some]
  rcases hmain item.price with ⟨hv, hcode, _⟩
  rw [hmw]
  unfold verifyOutcome
  rw [if_neg (by simp [hv])]
  rw [hcode]
  exact ⟨rfl, rfl⟩

/-- Witness for `fault_downgrade`: a ledger whose every fetch throws, with
proof `"sig-err"` on item `stripe-node` — the gate answers with the
`VERIFICATION_ERROR` 402 body. -/
theorem fault_downgrade_witness :
    ("sig-err" ∉ ([] : List String)) ∧
    (x402Middleware demoEnv none ledgerDown [] reqErr).decision =
      .paymentFailed (some "VERIFICATION_ERROR") "stripe-node" ∧
    (x402Middleware demoEnv none ledgerDown [] reqErr).decision.status =
      some 402 :=
  ⟨by simp,
   by
    have h := (fault_downgrade demoEnv ledgerDown [] "sig-err" "fetch failed"
      (by simp) (Or.inl rfl)).2 none reqErr ⟨(0.001 : ℚ)⟩ rfl rfl (by simp)
      (by simp)
    exact ⟨h.1, h.2⟩⟩

end ContextNow
